import Mathlib

/-!
Verification of the SPIMEX bulletin crawling/parsing pipeline
(`src/parcers/parser_file.py`, `src/parcers/parser_link.py`,
`src/parcers/file_downloader.py`, `src/db/bulletin.py`, `src/db/db.py`,
`src/cache/redis_client.py`).

The embedding works at the level the Python code works at:
* XLS cells (as produced by `xlrd.sheet.row_values`) are either strings or
  numbers; they are modelled by `Cell`.
* Calendar datetimes compared by `<=` are modelled by integers
  (`y*10000 + m*100 + d` keys: the encoding is strictly monotone in
  chronological order for valid dates, so all `datetime` comparisons carry
  over verbatim).
* Python exceptions that escape a region are modelled with `Option`:
  `none` is an uncaught exception.
-/

namespace Spimex

/-- One spreadsheet cell as returned by `xlrd.sheet.row_values`:
either a string or a number. -/
inductive Cell where
  | str (s : String)
  | num (n : Int)
  deriving DecidableEq, Repr

/-- Python truthiness of a cell (`''` and `0` are falsy). -/
def Cell.truthy : Cell → Bool
  | .str s => s ≠ ""
  | .num n => n ≠ 0

/-- Whether a cell is a Python `str` (`isinstance(value, str)`). -/
def Cell.isStr : Cell → Bool
  | .str _ => true
  | .num _ => false

/-- `str(cell)` (numeric rendering is only relevant for string-typed
columns fed with numeric cells, which the claims never exercise). -/
def Cell.toStr : Cell → String
  | .str s => s
  | .num n => toString n

/-- Substring occurrence over character lists (kernel-computable). -/
def charsContains (hay pat : List Char) : Bool :=
  pat.isPrefixOf hay ||
    match hay with
    | [] => false
    | _ :: t => charsContains t pat

/-- Python's `needle in hay` substring test. -/
def strContains (hay needle : String) : Bool :=
  charsContains hay.toList needle.toList

/-- Python `str.strip()` (ASCII whitespace at both ends). -/
def pyStrip (s : String) : String :=
  ⟨((s.toList.dropWhile Char.isWhitespace).reverse.dropWhile Char.isWhitespace).reverse⟩

/-- Python `s.startswith(pre)`. -/
def pyStartsWith (s pre : String) : Bool :=
  pre.toList.isPrefixOf s.toList

/-- First `n` characters, `s[:n]`. -/
def strTake (s : String) (n : Nat) : String :=
  ⟨s.toList.take n⟩

/-- Drop the first `n` characters, `s[n:]`. -/
def strDrop (s : String) (n : Nat) : String :=
  ⟨s.toList.drop n⟩

/-- Split a character list at every occurrence of `c`. -/
def splitOnChar (c : Char) : List Char → List (List Char)
  | [] => [[]]
  | x :: rest =>
    match splitOnChar c rest with
    | [] => [[x]]
    | h :: t => if x = c then [] :: h :: t else (x :: h) :: t

/-- Constant `METRIC_TON_UNIT` from `src/constante.py`. -/
def METRIC_TON_UNIT : String := "Единица измерения: Метрическая тонна"

/-- Constant `ITOGO` from `src/constante.py`. -/
def ITOGO : String := "Итого:"

/-- Column value type tags from the `COLUMN_NAMES` dict of `src/constante.py`. -/
inductive ColType where
  | strTy
  | intTy
  deriving DecidableEq, Repr

/-- `COLUMN_NAMES` from `src/constante.py`: expected header names and their
declared value types. -/
def COLUMN_NAMES : List (String × ColType) :=
  [("Код\nИнструмента", .strTy),
   ("Наименование\nИнструмента", .strTy),
   ("Базис\nпоставки", .strTy),
   ("Объем\nДоговоров\nв единицах\nизмерения", .intTy),
   ("Обьем\nДоговоров,\nруб.", .intTy),
   ("Количество\nДоговоров,\nшт.", .intTy)]

/-- `FIELD_NAMES` from `src/constante.py`: record field → column header. -/
def FIELD_NAMES : List (String × String) :=
  [("exchange_product_id", "Код\nИнструмента"),
   ("exchange_product_name", "Наименование\nИнструмента"),
   ("delivery_basis_name", "Базис\nпоставки"),
   ("volume", "Объем\nДоговоров\nв единицах\nизмерения"),
   ("total", "Обьем\nДоговоров,\nруб."),
   ("count", "Количество\nДоговоров,\nшт.")]

/-- Lookup in an association list (Python `dict` access / `in` test). -/
def alookup (m : List (String × Nat)) (k : String) : Option Nat :=
  match m with
  | [] => none
  | (k', v) :: rest => if k' = k then some v else alookup rest k

/-- Python `dict` assignment `m[k] = v` (overwrite if present, else append). -/
def ainsert (m : List (String × Nat)) (k : String) (v : Nat) : List (String × Nat) :=
  match m with
  | [] => [(k, v)]
  | (k', v') :: rest => if k' = k then (k, v) :: rest else (k', v') :: ainsert rest k v

/-- `all(col in column_indices for col in COLUMN_NAMES)`: every expected
column name has a recorded index. -/
def allColsPresent (ci : List (String × Nat)) : Bool :=
  COLUMN_NAMES.all (fun p => (alookup ci p.1).isSome)

/-- `FileParser.process_headers` (src/parcers/parser_file.py:16-33):
scan the row, record the column index of every cell whose stripped text is a
known column name; return the map only when ALL expected names were found,
else return the empty map. -/
def process_headers (row : List Cell) : List (String × Nat) :=
  let column_indices := go row 0 []
  if allColsPresent column_indices then
    column_indices
  else []
where
  go : List Cell → Nat → List (String × Nat) → List (String × Nat)
    | [], _, acc => acc
    | c :: rest, i, acc =>
      match c with
      | .str s =>
        if COLUMN_NAMES.any (fun p => p.1 = pyStrip s) then
          go rest (i + 1) (ainsert acc (pyStrip s) i)
        else go rest (i + 1) acc
      | .num _ => go rest (i + 1) acc

/-- Digit-list to number (helper for `pyFloatInt`). -/
def digitsToNat (l : List Char) : Option Nat :=
  if l.length > 0 && l.all Char.isDigit then
    some (l.foldl (fun n c => n * 10 + (c.toNat - 48)) 0)
  else none

/-- `int(float(s))` for a string cell: float-tolerant numeric coercion,
`none` models the `ValueError` raised on a non-numeric string.  (Decimal
notation with truncation toward zero; exponent notation is never produced
by the spreadsheets and is not modelled.) -/
def pyFloatInt (s : String) : Option Int :=
  let t := (pyStrip s).toList
  let neg := t.take 1 = ['-']
  let u := if t.take 1 = ['-'] || t.take 1 = ['+'] then t.drop 1 else t
  match splitOnChar '.' u with
  | [a] => (digitsToNat a).map (fun n => if neg then -(n : Int) else (n : Int))
  | [a, b] =>
    if b.all Char.isDigit then
      if a = [] then (if b = [] then none else some 0)
      else (digitsToNat a).map (fun n => if neg then -(n : Int) else (n : Int))
    else none
  | _ => none

/-- `int(float(cell))`; `none` models `ValueError`. -/
def Cell.toFloatInt : Cell → Option Int
  | .num n => some n
  | .str s => pyFloatInt s

/-- The guarded integer coercion used for every int-typed column
(src/parcers/parser_file.py:222-228 and 236-244):
`int(float(row[i])) if len(row) > i and row[i] else 0`, with
`ValueError`/`TypeError` handled to `0`. -/
def intAt (row : List Cell) (i : Nat) : Int :=
  match row[i]? with
  | some c => if c.truthy then (c.toFloatInt).getD 0 else 0
  | none => 0

/-- The guarded string coercion used for every str-typed column
(src/parcers/parser_file.py:245-250):
`str(row[i]).strip() if len(row) > i and row[i] else ''`. -/
def strAt (row : List Cell) (i : Nat) : String :=
  match row[i]? with
  | some c => if c.truthy then pyStrip c.toStr else ""
  | none => ""

/-- The record assembled by `FileParser.valid_row_in_dict_for_db` before
`add_new_key_in_dict_for_db` adds the derived fields. -/
structure RawRecord where
  exchange_product_id : String
  exchange_product_name : String
  delivery_basis_name : String
  volume : Int
  total : Int
  count : Int
  date : Int
  deriving DecidableEq, Repr

/-- `FileParser.valid_row_in_dict_for_db` (src/parcers/parser_file.py:204-254):
coerce the count column; when `count > 0` build the record from all mapped
columns by declared type and attach the date, else produce nothing.
`none` models a `KeyError` on a missing column index (uncaught by the
caller's `except (ValueError, IndexError)`), which cannot occur when the
caller has checked that all columns are present. -/
def valid_row_in_dict_for_db (row : List Cell) (ci : List (String × Nat))
    (date_bulletin : Int) : Option (List RawRecord) :=
  match alookup ci "Количество\nДоговоров,\nшт." with
  | none => none
  | some cidx =>
    let count := intAt row cidx
    if count > 0 then
      match alookup ci "Код\nИнструмента", alookup ci "Наименование\nИнструмента",
            alookup ci "Базис\nпоставки", alookup ci "Объем\nДоговоров\nв единицах\nизмерения",
            alookup ci "Обьем\nДоговоров,\nруб." with
      | some i1, some i2, some i3, some i4, some i5 =>
        some [{ exchange_product_id := strAt row i1
                exchange_product_name := strAt row i2
                delivery_basis_name := strAt row i3
                volume := intAt row i4
                total := intAt row i5
                count := count
                date := date_bulletin }]
      | _, _, _, _, _ => none
    else some []

/-- The record shape stored in the DB: `RawRecord` plus the derived fields
added by `add_new_key_in_dict_for_db`. -/
structure DbRecord where
  exchange_product_id : String
  exchange_product_name : String
  delivery_basis_name : String
  volume : Int
  total : Int
  count : Int
  date : Int
  oil_id : String
  delivery_basis_id : String
  delivery_type_id : String
  deriving DecidableEq, Repr

/-- Last one-character slice `s[-1]` of a Python string; `none` models the
`IndexError` raised when the string is empty. -/
def lastChar (s : String) : Option String :=
  match s.toList.getLast? with
  | some c => some ⟨[c]⟩
  | none => none

/-- Per-record body of `FileParser.add_new_key_in_dict_for_db`
(src/parcers/parser_file.py:256-266): derive `oil_id` (first 4 chars of the
product id), `delivery_basis_id` (chars [4:7)) and `delivery_type_id`
(`delivery_basis_id[-1]`, an uncaught `IndexError` when empty — `none`). -/
def add_new_key (r : RawRecord) : Option DbRecord :=
  let oil_id := strTake r.exchange_product_id 4
  let delivery_basis_id := strTake (strDrop r.exchange_product_id 4) 3
  match lastChar delivery_basis_id with
  | none => none
  | some dt =>
    some { exchange_product_id := r.exchange_product_id
           exchange_product_name := r.exchange_product_name
           delivery_basis_name := r.delivery_basis_name
           volume := r.volume, total := r.total, count := r.count
           date := r.date
           oil_id := oil_id
           delivery_basis_id := delivery_basis_id
           delivery_type_id := dt }

/-- `FileParser.add_new_key_in_dict_for_db` over the whole batch;
an `IndexError` on any record escapes to the outer handler (`none`). -/
def add_new_key_in_dict_for_db (data : List RawRecord) : Option (List DbRecord) :=
  data.mapM add_new_key

/-- The loop state of `FileParser.parse_file` (src/parcers/parser_file.py:56-60):
`in_metric_ton_section`, `skip_next_row`, `column_indices` and the
accumulated `result`. -/
structure PState where
  inSection : Bool
  skipNext : Bool
  colIdx : List (String × Nat)
  acc : List RawRecord
  deriving DecidableEq, Repr

/-- Initial loop state of `parse_file`. -/
def initPState : PState := ⟨false, false, [], []⟩

/-- `len(row) > 1 and isinstance(row[1], str) and needle in row[1]`. -/
def sndContains (row : List Cell) (needle : String) : Bool :=
  match row[1]? with
  | some (Cell.str s) => strContains s needle
  | _ => false

/-- One iteration of the row loop of `FileParser.parse_file`
(src/parcers/parser_file.py:63-118), branch for branch and in source order:
1. a row whose second cell contains the unit marker opens the section;
2. the sub-header row after a successful header row is skipped;
3. while inside the section with no headers found yet, the row is tried as
   a header row (`skip_next_row` is set only on success);
4. a row whose second cell contains the unit marker or the totals marker
   closes the section;
5. inside the section, a row whose second cell is a truthy string longer
   than 3 chars is a data row: when all columns are present its records are
   appended, else it is skipped.
`none` models an exception escaping the loop to the outer
`except Exception` handler: evaluating `row[1]` in the guard of branch 5
raises `IndexError` when the row has fewer than two cells. -/
def stepRow (date : Int) (s : PState) (row : List Cell) : Option PState :=
  if sndContains row METRIC_TON_UNIT then
    some { s with inSection := true }
  else if s.skipNext then
    some { s with skipNext := false }
  else if s.colIdx.isEmpty && s.inSection then
    let ci := process_headers row
    if ci.isEmpty then some s
    else some { s with colIdx := ci, skipNext := true }
  else if sndContains row METRIC_TON_UNIT || sndContains row ITOGO then
    some { s with inSection := false }
  else if s.inSection then
    match row[1]? with
    | none => none
    | some c =>
      if c.truthy && c.isStr && decide (3 < c.toStr.length) then
        if allColsPresent s.colIdx then
          match valid_row_in_dict_for_db row s.colIdx date with
          | none => none
          | some recs => some { s with acc := s.acc ++ recs }
        else some s
      else some s
  else some s

/-- The row loop of `parse_file` over the decoded grid (exception = `none`). -/
def runRows (date : Int) (rows : List (List Cell)) : Option PState :=
  rows.foldlM (stepRow date) initPState

/-- `FileParser.parse_file` (src/parcers/parser_file.py:35-130) from the
decoded grid down: run the section-scan loop, then add the derived fields;
any exception escaping either stage is met by `except Exception` and the
whole batch degrades to `[]`.  (The upstream stages — `None` content, the
HTML probe, the `xlrd` decode capability — are modelled by
`parse_file_bytes` below.) -/
def parse_file (rows : List (List Cell)) (date : Int) : List DbRecord :=
  match runRows date rows with
  | none => []
  | some s =>
    match add_new_key_in_dict_for_db s.acc with
    | none => []
    | some res => res

/-- `FileParser.checking_html_file` (src/parcers/parser_file.py:150-169):
the content-sniffing probe on the leading bytes. -/
def checking_html_file_is_html (content : String) : Bool :=
  pyStartsWith content "<!DOCTYPE" || pyStartsWith content "<html"

/-- `FileParser.parse_file` including its byte-level preamble
(src/parcers/parser_file.py:35-55): missing content and HTML content yield
an empty batch; otherwise the grid is obtained through the tabular-decode
capability (`xlrd`, passed as `decode`; a decode error is the capability
returning `[]`) and scanned. -/
def parse_file_bytes (decode : String → List (List Cell))
    (content : Option String) (date : Int) : List DbRecord :=
  match content with
  | none => []
  | some b =>
    if checking_html_file_is_html b then []
    else parse_file (decode b) date

/-! ## Link discovery (`src/parcers/parser_link.py`) -/

/-- `SpimexParser._is_valid_date` (src/parcers/parser_link.py:364-381), with
`current_date` the current datetime truncated to midnight: reject dates after
`current_date`; with no `max_date` accept iff `cutoff_date <= d`; with a
`max_date` accept iff `max_date <= d <= current_date`.  Datetimes are the
usual `y*10000 + m*100 + d` integer keys. -/
def is_valid_date (max_date : Option Int) (cutoff_date current_date d : Int) : Bool :=
  if d > current_date then false
  else
    match max_date with
    | none => decide (cutoff_date ≤ d)
    | some m => decide (m ≤ d) && decide (d ≤ current_date)

/-- `re.search(LINK_PATTERN, href)` for
`LINK_PATTERN = r"/upload/reports/oil_xls/oil_xls_(\d8)"`: find the first
position where the literal prefix is followed by 8 digits and return those
8 digits. -/
def searchDateToken (href : String) : Option String :=
  go href.toList
where
  pat : List Char := "/upload/reports/oil_xls/oil_xls_".toList
  go : List Char → Option String
    | [] => none
    | c :: rest =>
      let l := c :: rest
      let tail := l.drop pat.length
      if pat.isPrefixOf l && (tail.take 8).length = 8 && (tail.take 8).all Char.isDigit then
        some ⟨tail.take 8⟩
      else go rest

/-- Number denoted by a digit list (most significant first). -/
def natOfDigits (l : List Char) : Nat :=
  l.foldl (fun n c => n * 10 + (c.toNat - 48)) 0

/-- `datetime.strptime(date_str, "%Y%m%d")` on an 8-digit token: validate
month and day-of-month (`none` models the `ValueError` on e.g. month 99)
and return the integer date key. -/
def strptime8 (tok : String) : Option Int :=
  let l := tok.toList
  let y := natOfDigits (l.take 4)
  let m := natOfDigits ((l.drop 4).take 2)
  let d := natOfDigits ((l.drop 6).take 2)
  if 1 ≤ m && m ≤ 12 && 1 ≤ d && d ≤ daysInMonth y m && 1 ≤ y then
    some ((y : Int) * 10000 + (m : Int) * 100 + (d : Int))
  else none
where
  /-- Leap-year rule of the proleptic Gregorian calendar (`calendar.isleap`). -/
  isLeapYear (y : Nat) : Bool := y % 4 = 0 && (y % 100 ≠ 0 || y % 400 = 0)
  /-- Days in a month. -/
  daysInMonth (y m : Nat) : Nat :=
    if m = 2 then (if isLeapYear y then 29 else 28)
    else if m = 4 || m = 6 || m = 9 || m = 11 then 30
    else 31

/-- Query-string stripping and absolutisation of an accepted href
(src/parcers/parser_link.py:351-355): `urlunparse` keeps only scheme, netloc
and path, then `urljoin(BASE_URL, clean_url)` resolves site-relative paths
against `https://spimex.com`. -/
def clean_and_resolve (href : String) : String :=
  let clean : String := ⟨href.toList.takeWhile (fun c => !(c = '?' || c = '#'))⟩
  if pyStartsWith clean "http" then clean else "https://spimex.com" ++ clean

/-- `SpimexParser.parse_links` (src/parcers/parser_link.py:326-362) over the
matched hrefs of one listing page: skip hrefs without a date token, skip
(log and continue) malformed date tokens, and on the first date rejected by
`is_valid_date` stop processing the page and report the boundary flag. -/
def parse_links (max_date : Option Int) (cutoff_date current_date : Int) :
    List String → List (String × Int) × Bool
  | [] => ([], false)
  | href :: rest =>
    match searchDateToken href with
    | none => parse_links max_date cutoff_date current_date rest
    | some tok =>
      match strptime8 tok with
      | none => parse_links max_date cutoff_date current_date rest
      | some d =>
        if is_valid_date max_date cutoff_date current_date d then
          let (r, f) := parse_links max_date cutoff_date current_date rest
          ((clean_and_resolve href, d) :: r, f)
        else ([], true)

/-- `SpimexParser.produce_links` (src/parcers/parser_link.py:383-419).
`pages` is the fetch result per page number (`none` = fetch failure, the
list ending = no further pages load).  Per page: stop on fetch failure;
stop on a page with no links and no boundary; enqueue the page's links; stop
after enqueueing when the boundary was hit, else continue with the next
page.  The returned list is the final content of the link queue. -/
def produce_links (max_date : Option Int) (cutoff_date current_date : Int) :
    List (Option (List String)) → List (String × Int)
  | [] => []
  | none :: _ => []
  | some hrefs :: rest =>
    let (links, found_invalid) := parse_links max_date cutoff_date current_date hrefs
    if links.isEmpty && !found_invalid then []
    else links ++ (if found_invalid then []
                   else produce_links max_date cutoff_date current_date rest)

/-! ## File download (`src/parcers/file_downloader.py`) -/

/-- Outcome of `session.get(link)` + `raise_for_status()`: a successful
response body, an `aiohttp.ClientResponseError` with its HTTP status, or
any other exception (connection error, timeout, ...). -/
inductive FetchOutcome where
  | success (body : String)
  | httpError (status : Nat)
  | otherError
  deriving DecidableEq, Repr

/-- `FileDownloader.download_file` (src/parcers/file_downloader.py:21-47):
return the body on success; return `None` on a 404 `ClientResponseError`;
re-raise any other `ClientResponseError` (`Except.error status`); and return
`None` on every exception that is not a `ClientResponseError`. -/
def download_file : FetchOutcome → Except Nat (Option String)
  | .success body => .ok (some body)
  | .httpError status => if status = 404 then .ok none else .error status
  | .otherError => .ok none

/-! ## Sink completion (`src/db/db.py`) and storage (`src/db/bulletin.py`) -/

/-- The coordination state the sink can observe: the discovery-done event
(`producer_link_done`), the active-worker counter (`producer_db`) and
whether the records queue is empty. -/
structure PipelineState where
  producer_link_done : Bool
  producer_db : Nat
  queue_empty : Bool
  deriving DecidableEq, Repr

/-- The sink's completion predicate, from the loop guard of
`Database.put_data_into_bd` (src/db/db.py:128):
`obj.producer_db == 0 and queue.empty()`. -/
def sink_done (s : PipelineState) : Bool :=
  (s.producer_db == 0) && s.queue_empty

/-- The `(exchange_product_id, date)` key of the `uix_exchange_product_id_data`
unique constraint (src/db/bulletin.py:38-42). -/
def recordKey (r : DbRecord) : String × Int :=
  (r.exchange_product_id, r.date)

/-- No two rows share an `(exchange_product_id, date)` key. -/
def keyUnique : List DbRecord → Bool
  | [] => true
  | r :: rest => rest.all (fun x => !(decide (recordKey r = recordKey x))) && keyUnique rest

/-- One batch insert of `Database.put_data_into_bd` (src/db/db.py:130-136):
the multi-row `INSERT` commits only when it violates no
`(exchange_product_id, date)` uniqueness against the stored rows (the
`Bulletin` unique constraint); on violation the raised error is caught and
nothing is committed, leaving the table unchanged. -/
def put_batch (table batch : List DbRecord) : List DbRecord :=
  if keyUnique (table ++ batch) then table ++ batch else table

/-! ## Download worker (records-queue side) -/

/-- A link queue entry `(link, date_file)`. -/
structure LinkEntry where
  url : String
  date : Int
  deriving DecidableEq, Repr

/-- Modelled from the spec: the final-variant `SpimexParser.consume_links`
(the worker loop wired to the records queue `queue_data_for_db`) is absent
from `src/` — only its callers (`src/main.py`, `Database.put_data_into_bd`)
and its tests reference that variant.  Per spec §4.2, for each consumed
entry: fetch bytes (absence yields no bytes and is skipped), skip HTML
bytes (probe `checking_html_file`), otherwise decode and extract via the
record extractor (`parse_file`) and push the resulting batch — possibly
empty — onto the records queue.  `dl` is the download capability, `decode`
the tabular-decode capability; the result is the sequence of batches this
worker pushes. -/
def consume_links (dl : LinkEntry → Option String)
    (decode : String → List (List Cell)) : List LinkEntry → List (List DbRecord)
  | [] => []
  | e :: rest =>
    match dl e with
    | none => consume_links dl decode rest
    | some b =>
      if checking_html_file_is_html b then consume_links dl decode rest
      else parse_file (decode b) e.date :: consume_links dl decode rest

/-! ## Response-cache TTL (`src/cache/redis_client.py`) -/

/-- A calendar date (`datetime.date`). -/
structure CalDate where
  year : Nat
  month : Nat
  day : Nat
  deriving DecidableEq, Repr

/-- `RedisClient._get_ttl_until_reset` (src/cache/redis_client.py:89-98) at a
write instant given by calendar date `d` and `nowSec` seconds past midnight,
with the configured reset clock time at `resetSec` seconds past midnight:
`next_reset = combine(now.date(), reset_time)`; if that is not after `now`,
`next_reset = combine(now.date().replace(day=now.day + 1), reset_time)` —
`date.replace` raises `ValueError` (`none`) when `day + 1` exceeds the length
of the *current* month.  Otherwise the TTL is the exact number of seconds
until `next_reset`. -/
def get_ttl_until_reset (d : CalDate) (nowSec resetSec : Nat) : Option Int :=
  if nowSec < resetSec then
    some ((resetSec : Int) - (nowSec : Int))
  else if d.day + 1 ≤ strptime8.daysInMonth d.year d.month then
    some (86400 + (resetSec : Int) - (nowSec : Int))
  else none

/-- The TTL the spec prescribes: seconds from the write instant to the next
occurrence of the reset wall-clock time — the same day's reset moment if it
is still ahead, otherwise the following day's. -/
def spec_ttl_next_reset (nowSec resetSec : Nat) : Int :=
  if nowSec < resetSec then (resetSec : Int) - (nowSec : Int)
  else 86400 - (nowSec : Int) + (resetSec : Int)

/-! ## Concrete grids and records used by the counterexamples -/

/-- A section-opening row: its second cell contains the unit marker. -/
def markerRow : List Cell := [Cell.str "", Cell.str METRIC_TON_UNIT]

/-- A header row containing every expected column name, at indices 0–5. -/
def hdrRow : List Cell :=
  [Cell.str "Код\nИнструмента", Cell.str "Наименование\nИнструмента",
   Cell.str "Базис\nпоставки", Cell.str "Объем\nДоговоров\nв единицах\nизмерения",
   Cell.str "Обьем\nДоговоров,\nруб.", Cell.str "Количество\nДоговоров,\nшт."]

/-- A header candidate missing one required column (the count column). -/
def badHdrRow : List Cell :=
  [Cell.str "Код\nИнструмента", Cell.str "Наименование\nИнструмента",
   Cell.str "Базис\nпоставки", Cell.str "Объем\nДоговоров\nв единицах\nизмерения",
   Cell.str "Обьем\nДоговоров,\nруб.", Cell.str "Примечание"]

/-- The sub-header row following the header row. -/
def subHdrRow : List Cell := [Cell.str "1", Cell.str "2"]

/-- A well-formed data row with two contracts. -/
def dataRowA : List Cell :=
  [Cell.str "A592BO02A", Cell.str "Product A", Cell.str "Базис",
   Cell.num 100, Cell.num 500, Cell.num 2]

/-- A second well-formed data row with one contract. -/
def dataRowB : List Cell :=
  [Cell.str "B100XY05F", Cell.str "Product B", Cell.str "Базис",
   Cell.num 10, Cell.num 20, Cell.num 1]

/-- The record extracted from `dataRowA` under date key 7. -/
def recA : DbRecord :=
  { exchange_product_id := "A592BO02A", exchange_product_name := "Product A",
    delivery_basis_name := "Базис", volume := 100, total := 500, count := 2,
    date := 7, oil_id := "A592", delivery_basis_id := "BO0", delivery_type_id := "0" }

/-- The record extracted from `dataRowB` under date key 7. -/
def recB : DbRecord :=
  { exchange_product_id := "B100XY05F", exchange_product_name := "Product B",
    delivery_basis_name := "Базис", volume := 10, total := 20, count := 1,
    date := 7, oil_id := "B100", delivery_basis_id := "XY0", delivery_type_id := "0" }

/-! ## C1: the stopping predicate's date window -/

/-- C1 counterexample.  With `maxKnownDate = 2025-01-05` set and
`today = 2025-01-10`, the candidate `d = 2025-01-05` equal to the high-water
mark is accepted by `_is_valid_date`, while the claim's window
`maxKnownDate < d <= today` excludes it. -/
theorem is_valid_date_accepts_max_date_itself :
    is_valid_date (some 20250105) 20250101 20250110 20250105 = true ∧
      ¬((20250105 : Int) < 20250105) := by
  decide

/-- C1 (amended): the acceptance test of `_is_valid_date` accepts `d` iff
`d` is not after today and, with `maxKnownDate` unset, `cutoffDate <= d`,
and, with `maxKnownDate` set, `maxKnownDate <= d <= today` (the lower bound
is inclusive); every `d` after today is rejected. -/
theorem is_valid_date_spec (m cutoff today d : Int) :
    (is_valid_date none cutoff today d = true ↔ cutoff ≤ d ∧ d ≤ today) ∧
      (is_valid_date (some m) cutoff today d = true ↔ m ≤ d ∧ d ≤ today) := by
  unfold is_valid_date
  constructor
  · split <;> simp <;> omega
  · split <;> simp <;> omega

/-- C1 amended-theorem witness at `m = 3, cutoff = 1, today = 9, d = 3`. -/
theorem is_valid_date_spec_witness :
    is_valid_date (some 3) 1 9 3 = true ∧ (3 : Int) ≤ 3 ∧ (3 : Int) ≤ 9 :=
  ⟨by decide, ((is_valid_date_spec 3 1 9 3).2).mp (by decide)⟩

/-! ## C3: the sink's completion predicate -/

/-- C3 counterexample.  In the observable state where the discovery-done
event is not set, the active-worker counter is 0 and the queue is empty,
the sink's loop-guard predicate of `put_data_into_bd` is already true: the
predicate reads only `producer_db` and queue emptiness, never the
discovery-done flag. -/
theorem sink_done_true_with_discovery_outstanding :
    sink_done ⟨false, 0, true⟩ = true ∧
      (PipelineState.mk false 0 true).producer_link_done = false := by
  decide

/-- C3 (amended): the sink-facing completion predicate of
`put_data_into_bd` is true exactly when the active-worker counter
(`producer_db`) is zero and the records queue is empty; it stays false
while a worker is active or the queue is non-empty, but it does not
consult the discovery-done flag, so it can already be true before
discovery has finished when no worker has started. -/
theorem sink_done_spec (s : PipelineState) :
    sink_done s = true ↔ s.producer_db = 0 ∧ s.queue_empty = true := by
  cases s
  simp [sink_done]

/-! ## C7: the end-to-end discovery scenario -/

/-- C7.  With `maxKnownDate` unset, `cutoffDate = 2025-01-01` and today
2025-07-11: page 1 yields links dated 2025-01-05 and 2025-01-04 (both in
range), page 2 yields a first matching link dated 2024-12-30 (out of
range).  Both page-1 links are enqueued (query strings stripped, resolved
to absolute URLs); the out-of-range date halts the rest of page 2 and
halts pagination — page 3 is never consulted — and exactly 2 links are
enqueued. -/
theorem produce_links_two_page_scenario :
    produce_links none 20250101 20250711
        [some ["/upload/reports/oil_xls/oil_xls_20250105162000.xls",
               "/upload/reports/oil_xls/oil_xls_20250104162000.xls"],
         some ["/upload/reports/oil_xls/oil_xls_20241230162000.xls",
               "/upload/reports/oil_xls/oil_xls_20241229162000.xls"],
         some ["/upload/reports/oil_xls/oil_xls_20250103162000.xls"]] =
      [("https://spimex.com/upload/reports/oil_xls/oil_xls_20250105162000.xls", 20250105),
       ("https://spimex.com/upload/reports/oil_xls/oil_xls_20250104162000.xls", 20250104)] := by
  decide

/-! ## C9: download outcomes -/

/-- C9 counterexample.  A failure that is not an HTTP response error (for
example a connection error or timeout) makes `download_file` return the
NotFound signal `None` instead of raising, although it is not a 404. -/
theorem download_file_none_on_generic_error :
    download_file FetchOutcome.otherError = Except.ok none ∧
      ∀ s : Nat, FetchOutcome.otherError ≠ FetchOutcome.httpError s := by
  exact ⟨rfl, fun s h => FetchOutcome.noConfusion h⟩

/-- C9 (amended): `download_file` returns the response bytes on success,
returns `None` both on HTTP 404 and on any failure that is not an HTTP
response error, and raises exactly for HTTP response errors with a status
other than 404. -/
theorem download_file_spec (o : FetchOutcome) :
    (download_file o = Except.ok none ↔ o = .httpError 404 ∨ o = .otherError) ∧
      (∀ b, download_file o = Except.ok (some b) ↔ o = .success b) ∧
      (∀ s, download_file o = Except.error s ↔ o = .httpError s ∧ s ≠ 404) := by
  cases o <;> simp [download_file] <;> split_ifs <;> simp_all

/-! ## C10: cache TTL until the daily reset -/

/-- C10.  At a write on the last day of a month after the reset clock time
has passed — 2025-01-31 15:00:00 with reset time 14:11 (i.e. `nowSec =
54000`, `resetSec = 51060`) — `_get_ttl_until_reset` evaluates
`now.date().replace(day=now.day + 1)`, which raises `ValueError` (day 32),
instead of the 83460 seconds until 2025-02-01 14:11:00 that the spec
prescribes; on a non-month-end day (2025-01-30) the same computation
returns exactly the prescribed value. -/
theorem ttl_value_error_on_month_end :
    get_ttl_until_reset ⟨2025, 1, 31⟩ 54000 51060 = none ∧
      spec_ttl_next_reset 54000 51060 = 83460 ∧
      get_ttl_until_reset ⟨2025, 1, 30⟩ 54000 51060 = some 83460 := by
  decide

/-! ## C8: `(productId, date)` uniqueness at the storage boundary -/

/-- C8.  `(exchange_product_id, date)` uniqueness is an invariant preserved
by every batch insert of `put_data_into_bd`: the insert either commits
conflict-free rows or is aborted whole by the `Bulletin` unique constraint,
so ingesting the same batch twice never leaves two stored rows sharing a
key. -/
theorem put_batch_preserves_key_uniqueness (table batch : List DbRecord)
    (h : keyUnique table = true) :
    keyUnique (put_batch table batch) = true ∧
      keyUnique (put_batch (put_batch table batch) batch) = true := by
  unfold put_batch
  split_ifs <;> simp_all

/-- C8 witness: the empty table and the one-record batch `[recA]`. -/
theorem put_batch_preserves_key_uniqueness_witness :
    keyUnique (put_batch [] [recA]) = true ∧
      keyUnique (put_batch (put_batch [] [recA]) [recA]) = true :=
  put_batch_preserves_key_uniqueness [] [recA] (by decide)

/-! ## C2: every consumed non-HTML download's batch reaches the records queue -/

/-- C2 (spec-modelled, see `consume_links`).  For every link entry the
worker consumes whose download yields non-HTML bytes, the batch produced
by the record extractor on those bytes is pushed onto the records queue:
it occurs among the batches the worker pushed, so it is visible to the
sink and not discarded. -/
theorem consume_links_pushes_every_batch
    (dl : LinkEntry → Option String) (decode : String → List (List Cell))
    (entries : List LinkEntry) (e : LinkEntry) (b : String)
    (hmem : e ∈ entries) (hdl : dl e = some b)
    (hhtml : checking_html_file_is_html b = false) :
    parse_file (decode b) e.date ∈ consume_links dl decode entries := by
  induction entries with
  | nil => cases hmem
  | cons hd tl ih =>
    rcases List.mem_cons.mp hmem with heq | htl
    · subst heq
      rw [consume_links, hdl]
      dsimp only
      rw [if_neg (by simp [hhtml])]
      exact List.mem_cons_self _ _
    · have hrec := ih htl
      rw [consume_links]
      cases hhd : dl hd with
      | none => exact hrec
      | some bb =>
        dsimp only
        by_cases hh : checking_html_file_is_html bb = true
        · rw [if_pos hh]; exact hrec
        · rw [if_neg hh]; exact List.mem_cons_of_mem _ hrec

/-- C2 witness: one entry whose download yields the non-HTML bytes `"XLS"`,
with a decode capability producing the empty grid. -/
theorem consume_links_pushes_every_batch_witness :
    parse_file ((fun _ : String => ([] : List (List Cell))) "XLS") (LinkEntry.mk "u" 5).date ∈
      consume_links (fun _ => some "XLS") (fun _ => []) [LinkEntry.mk "u" 5] :=
  consume_links_pushes_every_batch (fun _ => some "XLS") (fun _ => [])
    [LinkEntry.mk "u" 5] (LinkEntry.mk "u" 5) "XLS"
    (List.mem_singleton.mpr rfl) rfl (by decide)

/-! ## C6: what opens and what closes the metric-ton section -/

/-- C6 counterexample.  In a grid where a second unit-marker row separates
two data rows, the rows after the second marker still produce records: the
grid below yields both `recA` and `recB`, while under the claim the second
marker row would close the section and `dataRowB` would produce nothing. -/
theorem second_marker_row_keeps_section_open :
    parse_file [markerRow, hdrRow, subHdrRow, dataRowA, markerRow, dataRowB] 7 =
      [recA, recB] := by
  decide

/-- C6 (amended): a row whose second cell contains the unit marker always
(re)opens the section — the opening branch precedes the closing branch, so
the unit marker never closes it; the section is closed exactly by a
totals-marker row (second cell containing "Итого:" but not the unit
marker), provided the row is not consumed as a sub-header skip or as a
header candidate. -/
theorem section_marker_transitions (date : Int) (s : PState) (row : List Cell) :
    (sndContains row METRIC_TON_UNIT = true →
        stepRow date s row = some { s with inSection := true }) ∧
      (sndContains row METRIC_TON_UNIT = false → sndContains row ITOGO = true →
        s.skipNext = false → s.colIdx ≠ [] →
        stepRow date s row = some { s with inSection := false }) := by
  constructor
  · intro hm
    unfold stepRow
    rw [if_pos hm]
  · intro hm hi hskip hci
    unfold stepRow
    rw [if_neg (by simp [hm]), if_neg (by simp [hskip]),
      if_neg (by simp [List.isEmpty_iff, hci]), if_pos (by simp [hm, hi])]

/-- C6 amended-theorem witness: a unit-marker row re-opens from the initial
state, and a totals row closes once headers are present. -/
theorem section_marker_transitions_witness :
    stepRow 0 initPState markerRow = some { initPState with inSection := true } ∧
      stepRow 0 ⟨true, false, [("k", 0)], []⟩ [Cell.str "", Cell.str "Итого:"] =
        some { (⟨true, false, [("k", 0)], []⟩ : PState) with inSection := false } :=
  ⟨(section_marker_transitions 0 initPState markerRow).1 (by decide),
   (section_marker_transitions 0 ⟨true, false, [("k", 0)], []⟩
      [Cell.str "", Cell.str "Итого:"]).2 (by decide) (by decide) rfl (by decide)⟩

/-! ## C4: per-row error containment -/

/-- C4 counterexample.  A single row with fewer than two cells inside the
section raises `IndexError` when the data-row guard evaluates `row[1]` —
outside the per-row `except (ValueError, IndexError)` handler — so the
outer handler empties the whole batch: without the short row the grid
yields `recA`, with it the batch is `[]` and the good row's record is
lost. -/
theorem short_row_in_section_empties_batch :
    parse_file [markerRow, hdrRow, subHdrRow, dataRowA, [Cell.str "x"]] 7 = [] ∧
      parse_file [markerRow, hdrRow, subHdrRow, dataRowA] 7 = [recA] := by
  decide

/-- When every expected column has an index, `valid_row_in_dict_for_db`
raises nothing (never `KeyError`): it yields a batch contribution. -/
lemma valid_row_isSome_of_allCols (row : List Cell) (ci : List (String × Nat))
    (date : Int) (h : allColsPresent ci = true) :
    (valid_row_in_dict_for_db row ci date).isSome = true := by
  unfold allColsPresent COLUMN_NAMES at h
  simp only [List.all_cons, List.all_nil, Bool.and_true, Bool.and_eq_true] at h
  obtain ⟨h1, h2, h3, h4, h5, h6⟩ := h
  obtain ⟨i1, e1⟩ := Option.isSome_iff_exists.mp h1
  obtain ⟨i2, e2⟩ := Option.isSome_iff_exists.mp h2
  obtain ⟨i3, e3⟩ := Option.isSome_iff_exists.mp h3
  obtain ⟨i4, e4⟩ := Option.isSome_iff_exists.mp h4
  obtain ⟨i5, e5⟩ := Option.isSome_iff_exists.mp h5
  obtain ⟨i6, e6⟩ := Option.isSome_iff_exists.mp h6
  unfold valid_row_in_dict_for_db
  rw [e6]
  dsimp only
  split
  · rw [e1, e2, e3, e4, e5]; rfl
  · rfl

/-- A row with at least two cells never makes the loop step raise. -/
lemma stepRow_isSome_of_len (date : Int) (s : PState) (row : List Cell)
    (h : 2 ≤ row.length) : (stepRow date s row).isSome = true := by
  obtain ⟨c, hc⟩ : ∃ c, row[1]? = some c :=
    ⟨row[1], List.getElem?_eq_getElem (by omega)⟩
  unfold stepRow
  rw [hc]
  dsimp only
  split_ifs <;> try rfl
  obtain ⟨v, hv⟩ := Option.isSome_iff_exists.mp
    (valid_row_isSome_of_allCols row s.colIdx date (by assumption))
  rw [hv]; rfl

/-- When every row of the grid has at least two cells, the whole
section-scan loop runs to completion (no exception escapes it). -/
lemma runRows_isSome_of_len (date : Int) (rows : List (List Cell))
    (h : ∀ r ∈ rows, 2 ≤ r.length) : (runRows date rows).isSome = true := by
  unfold runRows
  have main : ∀ (l : List (List Cell)) (s : PState), (∀ r ∈ l, 2 ≤ r.length) →
      (List.foldlM (stepRow date) s l).isSome = true := by
    intro l
    induction l with
    | nil => intro s _; rfl
    | cons r rest ih =>
      intro s hl
      obtain ⟨s', hs'⟩ := Option.isSome_iff_exists.mp
        (stepRow_isSome_of_len date s r (hl r (List.mem_cons_self r rest)))
      have hstep : List.foldlM (stepRow date) s (r :: rest) =
          stepRow date s r >>= fun s'' => List.foldlM (stepRow date) s'' rest := rfl
      rw [hstep, hs']
      exact ih s' (fun rr hrr => hl rr (List.mem_cons_of_mem r hrr))
  exact main rows initPState h

/-- C4 (amended): per-row failures are contained provided rows are wide
enough.  (a) On a grid all of whose rows have at least two cells, no
exception escapes the section-scan loop, so no single bad row can empty
the whole batch.  (b) A data row whose count cell fails the numeric
coercion contributes nothing by itself (`count` defaults to 0 and the row
is omitted), leaving the rest of the batch untouched.  (Unqualified, the
claim fails: a row with fewer than two cells inside the section raises
outside the per-row handler and empties the whole batch, see the
counterexample.) -/
theorem parse_file_per_row_containment :
    (∀ (date : Int) (rows : List (List Cell)), (∀ r ∈ rows, 2 ≤ r.length) →
        (runRows date rows).isSome = true) ∧
      (∀ (row : List Cell) (ci : List (String × Nat)) (date : Int) (i : Nat),
        alookup ci "Количество\nДоговоров,\nшт." = some i → intAt row i ≤ 0 →
        valid_row_in_dict_for_db row ci date = some []) := by
  constructor
  · exact fun date rows h => runRows_isSome_of_len date rows h
  · intro row ci date i hl hcount
    unfold valid_row_in_dict_for_db
    rw [hl]
    dsimp only
    rw [if_neg (by omega)]

/-- C4 amended-theorem witness: a two-cell grid row runs the loop to
completion, and a data row whose count cell reads "abc" contributes
nothing. -/
theorem parse_file_per_row_containment_witness :
    (runRows 0 [[Cell.str "ab", Cell.str "cd"]]).isSome = true ∧
      valid_row_in_dict_for_db [Cell.str "abc"]
        [("Количество\nДоговоров,\nшт.", 0)] 0 = some [] :=
  ⟨parse_file_per_row_containment.1 0 [[Cell.str "ab", Cell.str "cd"]] (by decide),
   parse_file_per_row_containment.2 [Cell.str "abc"]
     [("Количество\nДоговоров,\nшт.", 0)] 0 0 (by decide) (by decide)⟩

/-! ## C5: the header requirement is retried, not first-row-only -/

/-- C5 counterexample.  `badHdrRow`, the first row inside the section,
lacks the count column, so header matching fails on it — yet the file is
not treated as unparseable: the next row is retried as a header candidate,
succeeds, and the batch contains `recA` instead of being empty. -/
theorem failed_header_candidate_is_retried :
    process_headers badHdrRow = [] ∧
      parse_file [markerRow, badHdrRow, hdrRow, subHdrRow, dataRowA] 7 = [recA] := by
  decide

/-- While no header row has matched, a row on which header matching also
fails leaves the loop state with no column indices and no records (or
raises, which empties the batch anyway). -/
lemma stepRow_headerless (date : Int) (s : PState) (row : List Cell)
    (hci : s.colIdx = []) (hacc : s.acc = [])
    (hph : process_headers row = []) :
    stepRow date s row = none ∨
      ∃ s', stepRow date s row = some s' ∧ s'.colIdx = [] ∧ s'.acc = [] := by
  unfold stepRow
  by_cases hA : sndContains row METRIC_TON_UNIT = true
  · rw [if_pos hA]; exact Or.inr ⟨_, rfl, hci, hacc⟩
  · rw [if_neg hA]
    by_cases hB : s.skipNext = true
    · rw [if_pos hB]; exact Or.inr ⟨_, rfl, hci, hacc⟩
    · rw [if_neg hB]
      by_cases hC : (s.colIdx.isEmpty && s.inSection) = true
      · rw [if_pos hC]
        simp only [hph]
        exact Or.inr ⟨s, rfl, hci, hacc⟩
      · rw [if_neg hC]
        by_cases hE : (sndContains row METRIC_TON_UNIT || sndContains row ITOGO) = true
        · rw [if_pos hE]; exact Or.inr ⟨_, rfl, hci, hacc⟩
        · rw [if_neg hE]
          by_cases hF : s.inSection = true
          · rw [if_pos hF]
            cases hr : row[1]? with
            | none => exact Or.inl rfl
            | some c =>
              dsimp only
              by_cases hG : (c.truthy && c.isStr && decide (3 < c.toStr.length)) = true
              · rw [if_pos hG]
                have hno : allColsPresent s.colIdx = false := by rw [hci]; decide
                rw [if_neg (by simp [hno])]
                exact Or.inr ⟨_, rfl, hci, hacc⟩
              · rw [if_neg hG]; exact Or.inr ⟨_, rfl, hci, hacc⟩
          · rw [if_neg hF]; exact Or.inr ⟨_, rfl, hci, hacc⟩

/-- While no row matches the headers, the loop accumulates no records. -/
lemma runRows_headerless (date : Int) :
    ∀ (l : List (List Cell)) (s : PState), s.colIdx = [] → s.acc = [] →
      (∀ r ∈ l, process_headers r = []) →
      List.foldlM (stepRow date) s l = none ∨
        ∃ s', List.foldlM (stepRow date) s l = some s' ∧ s'.acc = [] := by
  intro l
  induction l with
  | nil => intro s _ hacc _; exact Or.inr ⟨s, rfl, hacc⟩
  | cons r rest ih =>
    intro s hci hacc hall
    have hstep : List.foldlM (stepRow date) s (r :: rest) =
        stepRow date s r >>= fun s'' => List.foldlM (stepRow date) s'' rest := rfl
    rcases stepRow_headerless date s r hci hacc (hall r (List.mem_cons_self r rest))
      with hnone | ⟨s', hs', hci', hacc'⟩
    · rw [hstep, hnone]; exact Or.inl rfl
    · rw [hstep, hs']
      exact ih s' hci' hacc' (fun rr hrr => hall rr (List.mem_cons_of_mem r hrr))

/-- C5 (amended): the presence of ALL expected column names in some row is
a hard precondition for producing any record — but the parser tries
successive rows inside the section as header candidates rather than only
the first one.  In particular, if header matching fails on every row of
the file, the batch is empty; a failed first candidate alone does not make
the file unparseable (see the counterexample). -/
theorem parse_file_header_hard_precondition (rows : List (List Cell)) (date : Int)
    (h : ∀ r ∈ rows, process_headers r = []) : parse_file rows date = [] := by
  unfold parse_file runRows
  rcases runRows_headerless date rows initPState rfl rfl h with hn | ⟨s', hs', hacc'⟩
  · rw [hn]
  · rw [hs']
    dsimp only
    rw [hacc']
    rfl

/-- C5 amended-theorem witness: a one-row grid on which header matching
fails yields the empty batch. -/
theorem parse_file_header_hard_precondition_witness :
    parse_file [[Cell.str "x"]] 0 = [] :=
  parse_file_header_hard_precondition [[Cell.str "x"]] 0 (by decide)

end Spimex
